import Mathlib

/-!
Verification development for the Clans API (`src/main.py`).

The service is a FastAPI application exposing four data handlers over one
PostgreSQL table: `create_clan`, `list_clans`, `get_clan`, `delete_clan`,
backed by a lazily initialised `psycopg2` `SimpleConnectionPool`.

Shallow embedding conventions:
* The database is a `DB` value: a list of rows plus a fresh-id source.
  The id generator models the table's `id UUID PRIMARY KEY DEFAULT
  gen_random_uuid()` column (ids are issued fresh, never repeated); the
  `clock` field models `NOW()` for `created_at`.
* Exceptions become case analysis: each handler returns an `Outcome`
  holding the HTTP response, the database state after the request, the
  pool state, and the trace of pool/driver events the request performed.
* A `psycopg2.Error` raised by the single `cur.execute` of a handler is
  modelled by the oracle argument `dbErr : Option String` (the message is
  `e.pgerror or str(e)` already formatted).
* FastAPI/pydantic request validation (body model, `Query(ge/le)` bounds,
  `UUID` path parameters) runs before the handler body; the `route_*`
  wrappers model it, returning 422 without touching pool or database.
-/

/-- `DB_MIN_CONNS` environment default: the number of connections
`psycopg2.pool.SimpleConnectionPool` opens eagerly when constructed. -/
def MIN_CONNS : Nat := 1

/-- One row of the `clans` table (`id UUID, name TEXT, region VARCHAR(16),
created_at TIMESTAMP`).  The 128-bit UUID is a `Nat`, the timestamp a
logical tick. -/
structure Row where
  id : Nat
  name : String
  region : String
  created_at : Nat
deriving DecidableEq, Repr

/-- Database state: live rows, the fresh-id source modelling
`gen_random_uuid()` under the PRIMARY KEY constraint, the ghost list of
ids already returned by create requests, and the `NOW()` clock. -/
structure DB where
  rows : List Row
  nextId : Nat
  issued : List Nat
  clock : Nat
deriving DecidableEq, Repr

/-- The empty database (state after `CREATE TABLE`). -/
def emptyDB : DB := ⟨[], 0, [], 0⟩

/-- State of the module-level `conn_pool` global: `none` in Python is
`initialized = false` here. -/
structure PoolSt where
  initialized : Bool
deriving DecidableEq, Repr

/-- Sort/filter/pagination data of the single SELECT built by
`list_clans` (`base_q + where_q + order_q + limit_q`). -/
structure ListQuery where
  whereRegion : Option String
  sortBy : String
  descend : Bool
  limit : Int
  offset : Int
deriving DecidableEq, Repr

/-- The four parameterized SQL statements the handlers can execute. -/
inductive Query where
  | insertClan (name region : String)
  | selectAll (q : ListQuery)
  | selectById (id : Nat)
  | deleteById (id : Nat)
deriving DecidableEq, Repr

/-- Pool and driver events a request can perform, in order. -/
inductive Ev where
  | openPool (n : Nat)
  | acquire
  | execSQL (q : Query)
  | commit
  | rollback
  | release
deriving DecidableEq, Repr

/-- HTTP responses of the service.  `httpError` is a raised
`HTTPException`; `validationError` is the framework's 422 for a request
rejected before the handler body runs; `serverError` is the framework's
generic 500 for an exception no handler code caught. -/
inductive Response where
  | created (id : Nat)
  | clanList (rows : List Row)
  | clan (r : Row)
  | deleted (id : Nat)
  | httpError (status : Nat) (detail : String)
  | validationError
  | serverError
deriving DecidableEq, Repr

/-- HTTP status code of a response. -/
def Response.status : Response → Nat
  | .created _ => 201
  | .clanList _ => 200
  | .clan _ => 200
  | .deleted _ => 200
  | .httpError s _ => s
  | .validationError => 422
  | .serverError => 500

/-- Result of one request: response, database after the request, pool
state after the request, and the event trace. -/
structure Outcome where
  resp : Response
  db : DB
  pool : PoolSt
  tr : List Ev
deriving DecidableEq, Repr

/-- `get_pool()`: returns the events performed and the new pool state.
On first use it constructs `SimpleConnectionPool(MIN_CONNS, MAX_CONNS, ...)`,
which eagerly opens `MIN_CONNS` database connections. -/
def get_pool (p : PoolSt) : List Ev × PoolSt :=
  if p.initialized then ([], p) else ([Ev.openPool MIN_CONNS], ⟨true⟩)

/-- Body of a POST /clans request after pydantic validation
(`CreateClanRequest`). -/
structure CreateClanRequest where
  name : String
  region : String
deriving DecidableEq, Repr

/-- `create_clan` handler body.  `getconn`; INSERT RETURNING id; on
success `commit` and 201; on `psycopg2.Error` `rollback` and
HTTPException 500 with the driver message appended; `putconn` in
`finally` on every path. -/
def create_clan (payload : CreateClanRequest) (p : PoolSt) (db : DB)
    (dbErr : Option String) : Outcome :=
  let gp := get_pool p
  match dbErr with
  | some msg =>
    ⟨Response.httpError 500 ("DB error: " ++ msg), db, gp.2,
      gp.1 ++ [Ev.acquire, Ev.execSQL (Query.insertClan payload.name payload.region),
        Ev.rollback, Ev.release]⟩
  | none =>
    let newRow : Row := ⟨db.nextId, payload.name, payload.region, db.clock⟩
    ⟨Response.created db.nextId,
      ⟨db.rows ++ [newRow], db.nextId + 1, db.issued ++ [db.nextId], db.clock + 1⟩, gp.2,
      gp.1 ++ [Ev.acquire, Ev.execSQL (Query.insertClan payload.name payload.region),
        Ev.commit, Ev.release]⟩

/-- The `allowed_cols` set of `list_clans`. -/
def allowedCols : List String := ["id", "name", "region", "created_at"]

/-- `if region:` — Python truthiness: `None` and the empty string both
skip the WHERE clause. -/
def regionFilter : Option String → Option String
  | some r => if r = "" then none else some r
  | none => none

/-- Row comparison for `ORDER BY <col> ASC` (ties broken arbitrarily,
as in the source, which has no secondary sort key). -/
def rowLe (col : String) (a b : Row) : Bool :=
  if col = "id" then decide (a.id ≤ b.id)
  else if col = "name" then !decide (b.name < a.name)
  else if col = "region" then !decide (b.region < a.region)
  else decide (a.created_at ≤ b.created_at)

/-- Insertion step of the sort used to interpret ORDER BY. -/
def insertSorted (le : Row → Row → Bool) (r : Row) : List Row → List Row
  | [] => [r]
  | x :: xs => if le r x then r :: x :: xs else x :: insertSorted le r xs

/-- Insertion sort interpreting ORDER BY. -/
def sortRows (le : Row → Row → Bool) : List Row → List Row
  | [] => []
  | x :: xs => insertSorted le x (sortRows le xs)

/-- Semantics of the SELECT built by `list_clans`: optional WHERE on
region, ORDER BY, then OFFSET and LIMIT. -/
def runListQuery (db : DB) (q : ListQuery) : List Row :=
  let rows := match q.whereRegion with
    | some r => db.rows.filter (fun x => x.region == r)
    | none => db.rows
  let le := if q.descend then (fun a b => rowLe q.sortBy b a) else rowLe q.sortBy
  ((sortRows le rows).drop q.offset.toNat).take q.limit.toNat

/-- Python `str.lower()` (ASCII case mapping; no character of the
`order` allow-list has a non-ASCII upper-case form). -/
def pyLower (s : String) : String := String.mk (s.data.map Char.toLower)

/-- Core of the `list_clans` handler, after the `if region:` truthiness
test has been folded into `rf`.  Mirrors the source order: `get_pool()`
first, then the `sort_by` allow-list check, then the lowercased `order`
check, then query construction and execution.  The 400 paths raise
`HTTPException` before `getconn`, so their traces hold no acquire,
execute or release event. -/
def list_core (rf : Option String) (sort_by ord : String) (limit offset : Int)
    (p : PoolSt) (db : DB) (dbErr : Option String) : Outcome :=
  let gp := get_pool p
  if sort_by ∈ allowedCols then
    if pyLower ord ∈ ["asc", "desc"] then
      let q : ListQuery := ⟨rf, sort_by, pyLower ord != "asc", limit, offset⟩
      match dbErr with
      | some msg =>
        ⟨Response.httpError 500 ("DB error: " ++ msg), db, gp.2,
          gp.1 ++ [Ev.acquire, Ev.execSQL (Query.selectAll q), Ev.release]⟩
      | none =>
        ⟨Response.clanList (runListQuery db q), db, gp.2,
          gp.1 ++ [Ev.acquire, Ev.execSQL (Query.selectAll q), Ev.release]⟩
    else ⟨Response.httpError 400 ("Invalid order: " ++ ord), db, gp.2, gp.1⟩
  else ⟨Response.httpError 400 ("Invalid sort_by: " ++ sort_by), db, gp.2, gp.1⟩

/-- `list_clans` handler body. -/
def list_clans (region : Option String) (sort_by ord : String) (limit offset : Int)
    (p : PoolSt) (db : DB) (dbErr : Option String) : Outcome :=
  list_core (regionFilter region) sort_by ord limit offset p db dbErr

/-- `get_clan` handler body.  SELECT by id; `None` row raises
HTTPException 404 (not caught by `except psycopg2.Error`); driver error
becomes HTTPException 500 with the message appended; `putconn` in
`finally` on every path. -/
def get_clan (clan_id : Nat) (p : PoolSt) (db : DB) (dbErr : Option String) : Outcome :=
  let gp := get_pool p
  match dbErr with
  | some msg =>
    ⟨Response.httpError 500 ("DB error: " ++ msg), db, gp.2,
      gp.1 ++ [Ev.acquire, Ev.execSQL (Query.selectById clan_id), Ev.release]⟩
  | none =>
    match db.rows.find? (fun r => r.id == clan_id) with
    | none =>
      ⟨Response.httpError 404 "Clan not found", db, gp.2,
        gp.1 ++ [Ev.acquire, Ev.execSQL (Query.selectById clan_id), Ev.release]⟩
    | some r =>
      ⟨Response.clan r, db, gp.2,
        gp.1 ++ [Ev.acquire, Ev.execSQL (Query.selectById clan_id), Ev.release]⟩

/-- `delete_clan` handler body.  DELETE RETURNING id, then `commit`
(also when no row matched), then 404 or the success payload.  The
handler has no `except` clause: a `psycopg2.Error` escapes after the
`finally` release, so the framework answers a generic 500 and no
rollback happens. -/
def delete_clan (clan_id : Nat) (p : PoolSt) (db : DB) (dbErr : Option String) : Outcome :=
  let gp := get_pool p
  match dbErr with
  | some _ =>
    ⟨Response.serverError, db, gp.2,
      gp.1 ++ [Ev.acquire, Ev.execSQL (Query.deleteById clan_id), Ev.release]⟩
  | none =>
    match db.rows.find? (fun r => r.id == clan_id) with
    | none =>
      ⟨Response.httpError 404 "Clan not found", db, gp.2,
        gp.1 ++ [Ev.acquire, Ev.execSQL (Query.deleteById clan_id), Ev.commit, Ev.release]⟩
    | some _ =>
      ⟨Response.deleted clan_id,
        ⟨db.rows.filter (fun x => x.id != clan_id), db.nextId, db.issued, db.clock⟩, gp.2,
        gp.1 ++ [Ev.acquire, Ev.execSQL (Query.deleteById clan_id), Ev.commit, Ev.release]⟩

/-! ### Python `uuid.UUID` string parsing

`get_clan` and `delete_clan` declare the path parameter as `uuid.UUID`;
FastAPI rejects a string the constructor refuses with a 422 before the
handler body runs.  `uuid.UUID(hex)` removes every occurrence of
`urn:` and then `uuid:`, strips `{`/`}` from both ends, removes all
hyphens, requires exactly 32 remaining characters, and converts them
with `int(hex, 16)` (which itself allows surrounding whitespace, an
optional sign, an optional `0x`/`0X` prefix, and single underscores
between digits), finally requiring the value to fit in 128 bits. -/

/-- Value of one hexadecimal digit, upper or lower case. -/
def hexVal (c : Char) : Option Nat :=
  if '0' ≤ c ∧ c ≤ '9' then some (c.toNat - 48)
  else if 'a' ≤ c ∧ c ≤ 'f' then some (c.toNat - 87)
  else if 'A' ≤ c ∧ c ≤ 'F' then some (c.toNat - 55)
  else none

/-- Digits after the first one: a `_` must be followed by a digit
(`int(s, 16)` underscore rule). -/
def hexRest (acc : Nat) (l : List Char) : Option Nat :=
  match l with
  | [] => some acc
  | c :: rest =>
    if c = '_' then
      match rest with
      | [] => none
      | c2 :: rest2 =>
        match hexVal c2 with
        | some v => hexRest (16 * acc + v) rest2
        | none => none
    else
      match hexVal c with
      | some v => hexRest (16 * acc + v) rest
      | none => none

/-- A non-empty digit run whose first character is a real digit. -/
def hexDigits (l : List Char) : Option Nat :=
  match l with
  | [] => none
  | c :: rest =>
    if c = '_' then none
    else
      match hexVal c with
      | some v => hexRest v rest
      | none => none

/-- Digit run after a `0x` prefix: one underscore may directly follow
the prefix. -/
def hexAfterPre : List Char → Option Nat
  | '_' :: rest => hexDigits rest
  | l => hexDigits l

/-- `int(s, 16)` body after sign handling: optional `0x`/`0X` prefix. -/
def hexBody (l : List Char) : Option Nat :=
  match l with
  | c :: x :: rest =>
    if c = '0' ∧ (x = 'x' ∨ x = 'X') then hexAfterPre rest
    else hexDigits (c :: x :: rest)
  | _ => hexDigits l

/-- ASCII whitespace accepted by `str.strip()` (the unicode-only
whitespace code points never arise in this development). -/
def isPySpace (c : Char) : Bool :=
  c = ' ' ∨ c = '\t' ∨ c = '\n' ∨ c = '\r' ∨ c = '\x0b' ∨ c = '\x0c'

/-- Strip whitespace from both ends, as `int()` does before parsing. -/
def stripWS (l : List Char) : List Char :=
  ((l.dropWhile isPySpace).reverse.dropWhile isPySpace).reverse

/-- `int(s, 16)`: strip, optional single sign, prefix, digits. -/
def pyIntHex (l0 : List Char) : Option Int :=
  match stripWS l0 with
  | [] => none
  | c :: rest =>
    if c = '+' then (hexBody rest).map Int.ofNat
    else if c = '-' then (hexBody rest).map (fun n => -(n : Int))
    else (hexBody (c :: rest)).map Int.ofNat

/-- `str.replace(pat, '')` worker: left-to-right, non-overlapping,
with enough fuel to consume the whole list. -/
def replaceSubFuel (pat : List Char) : Nat → List Char → List Char
  | _, [] => []
  | 0, l => l
  | fuel + 1, c :: rest =>
    if pat ≠ [] ∧ pat.isPrefixOf (c :: rest) then
      replaceSubFuel pat fuel (List.drop (pat.length - 1) rest)
    else c :: replaceSubFuel pat fuel rest

/-- `str.replace(pat, '')`: delete every occurrence of `pat`. -/
def replaceSub (pat l : List Char) : List Char :=
  replaceSubFuel pat l.length l

/-- A curly brace, written by code point to keep it out of literals. -/
def isBrace (c : Char) : Bool := c = '\x7b' ∨ c = '\x7d'

/-- `str.strip('{}')`: drop braces from both ends. -/
def stripBraces (l : List Char) : List Char :=
  ((l.dropWhile isBrace).reverse.dropWhile isBrace).reverse

/-- `uuid.UUID(s).int`, or `none` when the constructor raises. -/
def pyUUIDparse (s : String) : Option Nat :=
  let l := replaceSub ['u', 'u', 'i', 'd', ':'] (replaceSub ['u', 'r', 'n', ':'] s.data)
  let l := stripBraces l
  let l := l.filter (fun c => c != '-')
  if l.length = 32 then
    match pyIntHex l with
    | some i => if 0 ≤ i ∧ i < (2 : Int) ^ 128 then some i.toNat else none
    | none => none
  else none

/-- Lower-case hex digit of a value below 16, as `'%x'` prints it. -/
def toHexDigit (n : Nat) : Char :=
  if n < 10 then Char.ofNat (48 + n) else Char.ofNat (87 + n)

/-- `'%0*x' % (w, n)`: exactly `w` lower-case hex digits, most
significant first. -/
def toHexW : Nat → Nat → List Char
  | 0, _ => []
  | w + 1, n => toHexW w (n / 16) ++ [toHexDigit (n % 16)]

/-- `str(uuid.UUID(int=u))`: the canonical 8-4-4-4-12 form. -/
def uuidToString (u : Nat) : String :=
  let h := toHexW 32 u
  String.mk (h.take 8 ++ '-' :: (h.drop 8).take 4 ++ '-' :: (h.drop 12).take 4 ++
    '-' :: (h.drop 16).take 4 ++ '-' :: h.drop 20)

/-! ### Route wrappers (framework-level validation) -/

/-- Raw POST /clans body: `none` models an absent JSON field. -/
structure RawCreate where
  name : Option String
  region : Option String
deriving DecidableEq, Repr

/-- Pydantic validation of `CreateClanRequest`: both fields required,
`name` 1–255 characters, `region` 1–16 characters. -/
def parseCreate (raw : RawCreate) : Option CreateClanRequest :=
  match raw.name, raw.region with
  | some n, some r =>
    if 1 ≤ n.length ∧ n.length ≤ 255 ∧ 1 ≤ r.length ∧ r.length ≤ 16 then
      some ⟨n, r⟩
    else none
  | _, _ => none

/-- POST /clans: pydantic 422 before the handler, else `create_clan`. -/
def route_create (raw : RawCreate) (p : PoolSt) (db : DB)
    (dbErr : Option String) : Outcome :=
  match parseCreate raw with
  | none => ⟨Response.validationError, db, p, []⟩
  | some payload => create_clan payload p db dbErr

/-- FastAPI `Query` bounds of GET /clans: `limit` with `ge=1, le=1000`,
`offset` with `ge=0`; absent parameters take the defaults unchecked. -/
def validLimitOffset (limit offset : Option Int) : Bool :=
  (match limit with
   | some v => decide (1 ≤ v) && decide (v ≤ 1000)
   | none => true) &&
  (match offset with
   | some v => decide (0 ≤ v)
   | none => true)

/-- GET /clans: query-parameter validation (422) before the handler,
defaults `sort_by="created_at"`, `order="desc"`, `limit=100`,
`offset=0`, then `list_clans`. -/
def route_list (region sort_by ord : Option String) (limit offset : Option Int)
    (p : PoolSt) (db : DB) (dbErr : Option String) : Outcome :=
  if validLimitOffset limit offset then
    list_clans region (sort_by.getD "created_at") (ord.getD "desc")
      (limit.getD 100) (offset.getD 0) p db dbErr
  else ⟨Response.validationError, db, p, []⟩

/-- GET /clans/cid: the `uuid.UUID` path parameter (422 on parse
failure, before any pool or database activity), then `get_clan`. -/
def route_get (raw : String) (p : PoolSt) (db : DB) (dbErr : Option String) : Outcome :=
  match pyUUIDparse raw with
  | none => ⟨Response.validationError, db, p, []⟩
  | some u => get_clan u p db dbErr

/-- DELETE /clans/cid: same path-parameter validation, then
`delete_clan`. -/
def route_delete (raw : String) (p : PoolSt) (db : DB) (dbErr : Option String) : Outcome :=
  match pyUUIDparse raw with
  | none => ⟨Response.validationError, db, p, []⟩
  | some u => delete_clan u p db dbErr

/-- A create body violating the documented bounds: a field missing,
empty, or over 255 (name) / 16 (region) characters. -/
def violatesCreate (raw : RawCreate) : Prop :=
  raw.name = none ∨ raw.region = none ∨
  (∃ n, raw.name = some n ∧ (n.length < 1 ∨ 255 < n.length)) ∨
  (∃ r, raw.region = some r ∧ (r.length < 1 ∨ 16 < r.length))

/-- Characters `'%x'` can print: the lower-case hexadecimal digits. -/
def isLowerHexDigit (c : Char) : Bool :=
  decide (('0' ≤ c ∧ c ≤ '9') ∨ ('a' ≤ c ∧ c ≤ 'f'))

/-! ### Connection accounting -/

/-- Is this event a `putconn`? -/
def isRel : Ev → Bool
  | Ev.release => true
  | _ => false

/-- Is this event a `getconn`? -/
def isAcq : Ev → Bool
  | Ev.acquire => true
  | _ => false

/-- A trace releases exactly once per acquisition: releases and
acquisitions balance, and at most one connection is taken. -/
def paired (tr : List Ev) : Prop :=
  tr.countP isRel = tr.countP isAcq ∧ tr.countP isAcq ≤ 1

lemma paired_create_clan (payload : CreateClanRequest) (p : PoolSt) (db : DB)
    (e : Option String) : paired (create_clan payload p db e).tr := by
  unfold create_clan get_pool
  obtain ⟨i⟩ := p
  cases i <;> cases e <;>
    simp [paired, isRel, isAcq, List.countP_append, List.countP_cons]

lemma paired_list_core (rf : Option String) (sb ord : String) (lim off : Int)
    (p : PoolSt) (db : DB) (e : Option String) :
    paired (list_core rf sb ord lim off p db e).tr := by
  unfold list_core get_pool
  obtain ⟨i⟩ := p
  cases i <;> cases e <;> split_ifs <;>
    simp [paired, isRel, isAcq, List.countP_append, List.countP_cons]

lemma paired_get_clan (u : Nat) (p : PoolSt) (db : DB) (e : Option String) :
    paired (get_clan u p db e).tr := by
  unfold get_clan get_pool
  obtain ⟨i⟩ := p
  rcases hf : db.rows.find? (fun r => r.id == u) with _ | r <;>
    cases i <;> cases e <;>
      simp [hf, paired, isRel, isAcq, List.countP_append, List.countP_cons]

lemma paired_delete_clan (u : Nat) (p : PoolSt) (db : DB) (e : Option String) :
    paired (delete_clan u p db e).tr := by
  unfold delete_clan get_pool
  obtain ⟨i⟩ := p
  rcases hf : db.rows.find? (fun r => r.id == u) with _ | r <;>
    cases i <;> cases e <;>
      simp [hf, paired, isRel, isAcq, List.countP_append, List.countP_cons]

lemma paired_route_create (raw : RawCreate) (p : PoolSt) (db : DB) (e : Option String) :
    paired (route_create raw p db e).tr := by
  rcases h : parseCreate raw with _ | pl <;> simp only [route_create, h]
  · simp [paired]
  · exact paired_create_clan pl p db e

lemma paired_route_list (region sb ord : Option String) (lim off : Option Int)
    (p : PoolSt) (db : DB) (e : Option String) :
    paired (route_list region sb ord lim off p db e).tr := by
  unfold route_list
  split_ifs
  · exact paired_list_core _ _ _ _ _ p db e
  · simp [paired]

lemma paired_route_get (s : String) (p : PoolSt) (db : DB) (e : Option String) :
    paired (route_get s p db e).tr := by
  rcases h : pyUUIDparse s with _ | u <;> simp only [route_get, h]
  · simp [paired]
  · exact paired_get_clan u p db e

lemma paired_route_delete (s : String) (p : PoolSt) (db : DB) (e : Option String) :
    paired (route_delete s p db e).tr := by
  rcases h : pyUUIDparse s with _ | u <;> simp only [route_delete, h]
  · simp [paired]
  · exact paired_delete_clan u p db e

/-- Claim C3: in every handler and on every execution path (success,
database error, not-found, validation failure), a connection acquired
from the pool is released back exactly once per acquisition. -/
theorem C3_release_paired_per_acquisition (raw : RawCreate) (region sb ord : Option String)
    (lim off : Option Int) (s t : String) (p : PoolSt) (db : DB) (e : Option String) :
    paired (route_create raw p db e).tr ∧
    paired (route_list region sb ord lim off p db e).tr ∧
    paired (route_get s p db e).tr ∧
    paired (route_delete t p db e).tr :=
  ⟨paired_route_create raw p db e, paired_route_list region sb ord lim off p db e,
   paired_route_get s p db e, paired_route_delete t p db e⟩

/-- Claim C10: a list request whose `region` query parameter is the
empty string behaves exactly as if no region filter had been given
(Python `if region:` is false for the empty string, so no WHERE clause
is added): the whole request outcome is identical. -/
theorem C10_empty_region_is_no_filter (sb ord : Option String) (lim off : Option Int)
    (p : PoolSt) (db : DB) (e : Option String) :
    route_list (some "") sb ord lim off p db e =
      route_list none sb ord lim off p db e := by
  simp [route_list, list_clans, regionFilter]

/-- Claim C2, counterexample: on a cold process (pool not yet
initialised) a list request with `sort_by = "evil"` does return the 400,
but the handler's first statement `pool_ = get_pool()` has already
constructed the pool, opening its `MIN_CONNS` database connections —
so a connection to the database is opened before the 400 is produced,
contradicting the claim's "before any connection to the database is
opened or acquired". -/
theorem C2_counterexample :
    (route_list none (some "evil") none none none ⟨false⟩ emptyDB none).resp =
      Response.httpError 400 "Invalid sort_by: evil" ∧
    Ev.openPool MIN_CONNS ∈
      (route_list none (some "evil") none none none ⟨false⟩ emptyDB none).tr := by
  decide

/-- Claim C2 (amended): a list request whose `sort_by` is outside
the set id, name, region, created_at is answered with a 400 before the
query is constructed and before any connection is acquired from the
pool — no statement is executed and the database is untouched — but
only after the handler's initial `get_pool()` call, which on first use
opens the pool's minimum connections. -/
theorem C2_invalid_sort_rejected_before_query (region sb ord : Option String)
    (lim off : Option Int) (p : PoolSt) (db : DB) (e : Option String)
    (hval : validLimitOffset lim off = true)
    (hsort : sb.getD "created_at" ∉ allowedCols) :
    (route_list region sb ord lim off p db e).resp =
      Response.httpError 400 ("Invalid sort_by: " ++ sb.getD "created_at") ∧
    Ev.acquire ∉ (route_list region sb ord lim off p db e).tr ∧
    (∀ q, Ev.execSQL q ∉ (route_list region sb ord lim off p db e).tr) ∧
    (route_list region sb ord lim off p db e).db = db := by
  unfold route_list list_clans list_core get_pool
  obtain ⟨i⟩ := p
  cases i <;> simp [hval, hsort]

theorem C2_invalid_sort_witness :
    (route_list none (some "evil") none none none ⟨true⟩ emptyDB none).resp =
      Response.httpError 400 ("Invalid sort_by: " ++ "evil") ∧
    Ev.acquire ∉ (route_list none (some "evil") none none none ⟨true⟩ emptyDB none).tr ∧
    (route_list none (some "evil") none none none ⟨true⟩ emptyDB none).db = emptyDB :=
  have h := C2_invalid_sort_rejected_before_query none (some "evil") none none none
    ⟨true⟩ emptyDB none (by decide) (by decide)
  ⟨h.1, h.2.1, h.2.2.2⟩

lemma parseCreate_eq_none_of_violates (raw : RawCreate) (h : violatesCreate raw) :
    parseCreate raw = none := by
  rcases raw with ⟨n?, r?⟩
  unfold violatesCreate at h
  rcases n? with _ | n <;> rcases r? with _ | r <;>
    (simp_all [parseCreate]; try omega)

/-- Claim C6: `name` (1–255 characters) and `region` (1–16 characters)
are both required; a create body violating these bounds (missing,
empty, or oversized field) is rejected by pydantic with a 422 before
the handler body runs: no pool or driver event happens and the
database is unchanged. -/
theorem C6_create_body_validated (raw : RawCreate) (p : PoolSt) (db : DB)
    (e : Option String) (h : violatesCreate raw) :
    (route_create raw p db e).resp = Response.validationError ∧
    (route_create raw p db e).resp.status = 422 ∧
    (route_create raw p db e).tr = [] ∧
    (route_create raw p db e).db = db := by
  simp [route_create, parseCreate_eq_none_of_violates raw h, Response.status]

theorem C6_create_body_validated_witness :
    (route_create ⟨some "", some "EU"⟩ ⟨false⟩ emptyDB none).resp =
      Response.validationError ∧
    (route_create ⟨some "", some "EU"⟩ ⟨false⟩ emptyDB none).tr = [] ∧
    (route_create ⟨some "", some "EU"⟩ ⟨false⟩ emptyDB none).db = emptyDB :=
  have h := C6_create_body_validated ⟨some "", some "EU"⟩ ⟨false⟩ emptyDB none
    (Or.inr (Or.inr (Or.inl ⟨"", rfl, Or.inl (by decide)⟩)))
  ⟨h.1, h.2.2.1, h.2.2.2⟩

/-- Claim C8: with otherwise valid parameters, the `order` parameter is
accepted (the request proceeds to a 200 result) exactly when its
lowercase form is `asc` or `desc`; any other value yields the 400
client error with the offending value echoed. -/
theorem C8_order_case_insensitive_allowlist (region sb : Option String) (ordParam : String)
    (lim off : Option Int) (p : PoolSt) (db : DB)
    (hval : validLimitOffset lim off = true)
    (hsort : sb.getD "created_at" ∈ allowedCols) :
    ((route_list region sb (some ordParam) lim off p db none).resp =
        Response.clanList (runListQuery db
          ⟨regionFilter region, sb.getD "created_at", pyLower ordParam != "asc",
            lim.getD 100, off.getD 0⟩) ↔
      pyLower ordParam ∈ ["asc", "desc"]) ∧
    (pyLower ordParam ∉ ["asc", "desc"] →
      (route_list region sb (some ordParam) lim off p db none).resp =
        Response.httpError 400 ("Invalid order: " ++ ordParam)) := by
  unfold route_list list_clans list_core get_pool
  obtain ⟨i⟩ := p
  by_cases hord : pyLower ordParam ∈ ["asc", "desc"] <;>
    cases i <;> simp [hval, hsort, hord]

theorem C8_order_witness :
    ((route_list none none (some "DESC") none none ⟨true⟩ emptyDB none).resp =
        Response.clanList (runListQuery emptyDB
          ⟨none, "created_at", (pyLower "DESC" != "asc"), 100, 0⟩) ↔
      pyLower "DESC" ∈ ["asc", "desc"]) ∧
    (route_list none none (some "upward") none none ⟨true⟩ emptyDB none).resp =
      Response.httpError 400 ("Invalid order: " ++ "upward") :=
  ⟨(C8_order_case_insensitive_allowlist none none "DESC" none none ⟨true⟩ emptyDB
      (by decide) (by decide)).1,
   (C8_order_case_insensitive_allowlist none none "upward" none none ⟨true⟩ emptyDB
      (by decide) (by decide)).2 (by decide)⟩

/-- Claim C9: `limit` is bounded to 1..1000 with default 100 and
`offset` to 0.. with default 0: limits 0 and 1001 are rejected by the
framework with a 422 before the handler runs, limits 1 and 1000 are
accepted and produce the 200 list, a negative offset is rejected with
a 422, and omitting both parameters behaves exactly as `limit=100,
offset=0`. -/
theorem C9_limit_offset_bounds (region : Option String) (p : PoolSt) (db : DB)
    (o : Int) (hneg : o < 0) :
    (route_list region none none (some 0) none p db none).resp =
      Response.validationError ∧
    (route_list region none none (some 1001) none p db none).resp =
      Response.validationError ∧
    (route_list region none none (some 1) none p db none).resp =
      Response.clanList (runListQuery db
        ⟨regionFilter region, "created_at", true, 1, 0⟩) ∧
    (route_list region none none (some 1000) none p db none).resp =
      Response.clanList (runListQuery db
        ⟨regionFilter region, "created_at", true, 1000, 0⟩) ∧
    (route_list region none none none (some o) p db none).resp =
      Response.validationError ∧
    route_list region none none none none p db none =
      route_list region none none (some 100) (some 0) p db none := by
  have hno : ¬ (0 ≤ o) := by omega
  have hmem : "created_at" ∈ allowedCols := by decide
  have hlow : pyLower "desc" = "desc" := by decide
  have hdesc : (pyLower "desc" != "asc") = true := by decide
  obtain ⟨i⟩ := p
  refine ⟨?_, ?_, ?_, ?_, ?_, ?_⟩ <;>
    cases i <;>
      simp [route_list, validLimitOffset, list_clans, list_core, get_pool, hno,
        hmem, hlow, hdesc]

theorem C9_limit_offset_witness :
    (route_list none none none (some 0) none ⟨true⟩ emptyDB none).resp =
      Response.validationError ∧
    (route_list none none none (some 1001) none ⟨true⟩ emptyDB none).resp =
      Response.validationError ∧
    (route_list none none none (some 1) none ⟨true⟩ emptyDB none).resp =
      Response.clanList (runListQuery emptyDB ⟨none, "created_at", true, 1, 0⟩) ∧
    (route_list none none none (some 1000) none ⟨true⟩ emptyDB none).resp =
      Response.clanList (runListQuery emptyDB ⟨none, "created_at", true, 1000, 0⟩) ∧
    (route_list none none none none (some (-1)) ⟨true⟩ emptyDB none).resp =
      Response.validationError ∧
    route_list none none none none none ⟨true⟩ emptyDB none =
      route_list none none none (some 100) (some 0) ⟨true⟩ emptyDB none :=
  C9_limit_offset_bounds none ⟨true⟩ emptyDB (-1) (by decide)

/-! ### Round trip between `str(uuid)` and `uuid.UUID(str)` -/

lemma lowerHex_ne (c : Char) (h : isLowerHexDigit c = true) (d : Char)
    (hd : isLowerHexDigit d = false) : c ≠ d := by
  rintro rfl
  rw [h] at hd
  exact absurd hd (by simp)

lemma hexVal_isSome_of_lowerHex (c : Char) (h : isLowerHexDigit c = true) :
    hexVal c ≠ none := by
  have hp := of_decide_eq_true h
  unfold hexVal
  rcases hp with h1 | h1
  · rw [if_pos h1]; simp
  · by_cases h09 : '0' ≤ c ∧ c ≤ '9'
    · rw [if_pos h09]; simp
    · rw [if_neg h09, if_pos h1]; simp

lemma toHexDigit_lowerHex (m : Nat) (hm : m < 16) :
    isLowerHexDigit (toHexDigit m) = true := by
  interval_cases m <;> decide

lemma hexVal_toHexDigit (m : Nat) (hm : m < 16) :
    hexVal (toHexDigit m) = some m := by
  interval_cases m <;> decide

lemma toHexW_length (w n : Nat) : (toHexW w n).length = w := by
  induction w generalizing n with
  | zero => rfl
  | succ w ih => simp [toHexW, ih]

lemma toHexW_mem (w n : Nat) (c : Char) (hc : c ∈ toHexW w n) :
    isLowerHexDigit c = true := by
  induction w generalizing n with
  | zero => simp [toHexW] at hc
  | succ w ih =>
    rw [toHexW] at hc
    rcases List.mem_append.mp hc with h | h
    · exact ih _ h
    · rw [List.mem_singleton.mp h]
      exact toHexDigit_lowerHex _ (Nat.mod_lt _ (by norm_num))

lemma hexRest_cons (acc : Nat) (c : Char) (rest : List Char) (v : Nat)
    (hne : c ≠ '_') (hv : hexVal c = some v) :
    hexRest acc (c :: rest) = hexRest (16 * acc + v) rest := by
  rw [hexRest.eq_def]
  simp [hne, hv]

lemma hexRest_toHexW (w : Nat) : ∀ (n acc : Nat) (tail : List Char),
    hexRest acc (toHexW w n ++ tail) = hexRest (acc * 16 ^ w + n % 16 ^ w) tail := by
  induction w with
  | zero =>
    intro n acc tail
    simp [toHexW, Nat.mod_one]
  | succ w ih =>
    intro n acc tail
    rw [toHexW, List.append_assoc, ih]
    have h16 : n % 16 < 16 := Nat.mod_lt _ (by norm_num)
    have hne : toHexDigit (n % 16) ≠ '_' :=
      lowerHex_ne _ (toHexDigit_lowerHex _ h16) '_' (by decide)
    show hexRest _ (toHexDigit (n % 16) :: tail) = _
    rw [hexRest_cons _ _ _ _ hne (hexVal_toHexDigit _ h16)]
    have harith : 16 * (acc * 16 ^ w + n / 16 % 16 ^ w) + n % 16 =
        acc * 16 ^ (w + 1) + n % 16 ^ (w + 1) := by
      have hmod : n % 16 ^ (w + 1) = n % 16 + 16 * (n / 16 % 16 ^ w) := by
        rw [pow_succ, mul_comm]
        exact Nat.mod_mul
      rw [hmod]
      ring
    rw [harith]

lemma hexDigits_toHexW (w n : Nat) (hw : 0 < w) :
    hexDigits (toHexW w n) = some (n % 16 ^ w) := by
  rcases hcl : toHexW w n with _ | ⟨c, rest⟩
  · have hlen := toHexW_length w n
    rw [hcl] at hlen
    simp at hlen
    omega
  · have hcmem : c ∈ toHexW w n := by rw [hcl]; exact List.mem_cons_self c rest
    have hhex := toHexW_mem w n c hcmem
    have hne : c ≠ '_' := lowerHex_ne c hhex '_' (by decide)
    rcases hv : hexVal c with _ | v
    · exact absurd hv (hexVal_isSome_of_lowerHex c hhex)
    · rw [hexDigits, if_neg hne, hv]
      have h0 : hexRest 0 (c :: rest) = hexRest v rest := by
        simpa using hexRest_cons 0 c rest v hne hv
      have h1 : hexRest 0 (toHexW w n ++ []) =
          hexRest (0 * 16 ^ w + n % 16 ^ w) [] := hexRest_toHexW w n 0 []
      rw [List.append_nil, hcl, h0] at h1
      show hexRest v rest = some (n % 16 ^ w)
      rw [h1]
      simp [hexRest]

lemma canonical_mem (l : List Char) (c : Char)
    (hc : c ∈ l.take 8 ++ '-' :: (l.drop 8).take 4 ++ '-' :: (l.drop 12).take 4 ++
      '-' :: (l.drop 16).take 4 ++ '-' :: l.drop 20) : c ∈ l ∨ c = '-' := by
  simp only [List.mem_append, List.mem_cons] at hc
  casesm* _ ∨ _
  all_goals
    first
    | (right; assumption)
    | (left
       first
       | exact List.mem_of_mem_take (by assumption)
       | exact List.mem_of_mem_drop (by assumption)
       | exact List.mem_of_mem_drop (List.mem_of_mem_take (by assumption)))

lemma uuidString_mem (u : Nat) (c : Char) (hc : c ∈ (uuidToString u).data) :
    isLowerHexDigit c = true ∨ c = '-' := by
  have hdata : (uuidToString u).data =
      (toHexW 32 u).take 8 ++ '-' :: ((toHexW 32 u).drop 8).take 4 ++
        '-' :: ((toHexW 32 u).drop 12).take 4 ++
        '-' :: ((toHexW 32 u).drop 16).take 4 ++ '-' :: (toHexW 32 u).drop 20 := rfl
  rw [hdata] at hc
  rcases canonical_mem _ c hc with h | h
  · exact Or.inl (toHexW_mem 32 u c h)
  · exact Or.inr h

lemma replaceSubFuel_eq_self (pat : List Char) (c0 : Char) (hp : pat.head? = some c0)
    (fuel : Nat) : ∀ l : List Char, c0 ∉ l → replaceSubFuel pat fuel l = l := by
  induction fuel with
  | zero => intro l _; cases l <;> rfl
  | succ f ih =>
    intro l hnm
    cases l with
    | nil => rfl
    | cons c rest =>
      rw [replaceSubFuel]
      rw [if_neg]
      · rw [ih rest (fun hmem => hnm (List.mem_cons_of_mem c hmem))]
      · rintro ⟨hne, hpre⟩
        rcases pat with _ | ⟨p0, pat'⟩
        · exact hne rfl
        · simp only [List.head?, Option.some.injEq] at hp
          simp only [List.isPrefixOf_cons₂, Bool.and_eq_true, beq_iff_eq] at hpre
          exact hnm (by rw [← hp, hpre.1]; exact List.mem_cons_self c rest)

lemma replaceSub_eq_self (pat : List Char) (c0 : Char) (hp : pat.head? = some c0)
    (l : List Char) (hnm : c0 ∉ l) : replaceSub pat l = l :=
  replaceSubFuel_eq_self pat c0 hp l.length l hnm

lemma dropWhile_eq_self_of_not (P : Char → Bool) (l : List Char)
    (h : ∀ c ∈ l, P c = false) : l.dropWhile P = l := by
  cases l with
  | nil => rfl
  | cons c rest =>
    rw [List.dropWhile_cons, h c (List.mem_cons_self c rest)]
    simp

lemma strip_eq_self_of_not (P : Char → Bool) (l : List Char)
    (h : ∀ c ∈ l, P c = false) :
    ((l.dropWhile P).reverse.dropWhile P).reverse = l := by
  rw [dropWhile_eq_self_of_not P l h,
    dropWhile_eq_self_of_not P l.reverse (fun c hc => h c (List.mem_reverse.mp hc)),
    List.reverse_reverse]

lemma take_drop_reassemble (l : List Char) :
    l.take 8 ++ ((l.drop 8).take 4 ++ ((l.drop 12).take 4 ++
      ((l.drop 16).take 4 ++ l.drop 20))) = l := by
  have h16 : (l.drop 16).take 4 ++ l.drop 20 = l.drop 16 := by
    have h := List.take_append_drop 4 (l.drop 16)
    rw [List.drop_drop] at h
    norm_num at h
    exact h
  have h12 : (l.drop 12).take 4 ++ l.drop 16 = l.drop 12 := by
    have h := List.take_append_drop 4 (l.drop 12)
    rw [List.drop_drop] at h
    norm_num at h
    exact h
  have h8 : (l.drop 8).take 4 ++ l.drop 12 = l.drop 8 := by
    have h := List.take_append_drop 4 (l.drop 8)
    rw [List.drop_drop] at h
    norm_num at h
    exact h
  rw [h16, h12, h8, List.take_append_drop]

lemma filter_canonical (l : List Char) (hl : ∀ c ∈ l, (c != '-') = true) :
    (l.take 8 ++ '-' :: (l.drop 8).take 4 ++ '-' :: (l.drop 12).take 4 ++
      '-' :: (l.drop 16).take 4 ++ '-' :: l.drop 20).filter (fun c => c != '-') = l := by
  have htk : ∀ m k : Nat,
      ((l.drop k).take m).filter (fun c => c != '-') = (l.drop k).take m :=
    fun m k => List.filter_eq_self.mpr
      (fun a ha => hl a (List.mem_of_mem_drop (List.mem_of_mem_take ha)))
  have ht8 : (l.take 8).filter (fun c => c != '-') = l.take 8 :=
    List.filter_eq_self.mpr (fun a ha => hl a (List.mem_of_mem_take ha))
  have htd : (l.drop 20).filter (fun c => c != '-') = l.drop 20 :=
    List.filter_eq_self.mpr (fun a ha => hl a (List.mem_of_mem_drop ha))
  have hdash : (('-' : Char) != '-') = false := by decide
  simp only [List.filter_append, List.filter_cons, hdash, Bool.false_eq_true, if_false,
    ht8, htk, htd]
  simpa [List.append_assoc] using take_drop_reassemble l

lemma pyIntHex_toHexW (u : Nat) :
    pyIntHex (toHexW 32 u) = some (Int.ofNat (u % 16 ^ 32)) := by
  have hlen := toHexW_length 32 u
  have hws : ∀ c ∈ toHexW 32 u, isPySpace c = false := by
    intro c hc
    have h := toHexW_mem 32 u c hc
    simp [isPySpace, lowerHex_ne c h ' ' (by decide), lowerHex_ne c h '\t' (by decide),
      lowerHex_ne c h '\n' (by decide), lowerHex_ne c h '\r' (by decide),
      lowerHex_ne c h '\x0b' (by decide), lowerHex_ne c h '\x0c' (by decide)]
  have hstrip : stripWS (toHexW 32 u) = toHexW 32 u :=
    strip_eq_self_of_not isPySpace _ hws
  rcases hcl : toHexW 32 u with _ | ⟨c1, t1⟩
  · rw [hcl] at hlen; simp at hlen
  rcases ht1 : t1 with _ | ⟨c2, t2⟩
  · rw [hcl, ht1] at hlen; simp at hlen
  have hc1 : isLowerHexDigit c1 = true := by
    apply toHexW_mem 32 u c1
    rw [hcl]
    exact List.mem_cons_self _ _
  have hc2 : isLowerHexDigit c2 = true := by
    apply toHexW_mem 32 u c2
    rw [hcl, ht1]
    exact List.mem_cons_of_mem _ (List.mem_cons_self _ _)
  have hbody : hexBody (c1 :: c2 :: t2) = some (u % 16 ^ 32) := by
    rw [hexBody.eq_def]
    simp only []
    rw [if_neg]
    · rw [← ht1, ← hcl]
      exact hexDigits_toHexW 32 u (by norm_num)
    · rintro ⟨-, h | h⟩
      · exact lowerHex_ne c2 hc2 'x' (by decide) h
      · exact lowerHex_ne c2 hc2 'X' (by decide) h
  rw [hcl, ht1] at hstrip
  rw [pyIntHex, hstrip]
  simp only []
  rw [if_neg (lowerHex_ne c1 hc1 '+' (by decide)),
    if_neg (lowerHex_ne c1 hc1 '-' (by decide)), hbody]
  rfl

/-- `uuid.UUID(str(x))` recovers `x`: parsing the canonical string form
of a 128-bit value yields the value back. -/
lemma pyUUID_roundtrip (u : Nat) (hu : u < 2 ^ 128) :
    pyUUIDparse (uuidToString u) = some u := by
  have hmem := uuidString_mem u
  have hnu : 'u' ∉ (uuidToString u).data := by
    intro hc
    rcases hmem 'u' hc with h | h
    · exact absurd h (by decide)
    · exact absurd h (by decide)
  have hnb : ∀ c ∈ (uuidToString u).data, isBrace c = false := by
    intro c hc
    rcases hmem c hc with h | h
    · simp [isBrace, lowerHex_ne c h '\x7b' (by decide),
        lowerHex_ne c h '\x7d' (by decide)]
    · subst h; decide
  have hstrip : stripBraces (uuidToString u).data = (uuidToString u).data :=
    strip_eq_self_of_not isBrace _ hnb
  have hdata : (uuidToString u).data =
      (toHexW 32 u).take 8 ++ '-' :: ((toHexW 32 u).drop 8).take 4 ++
        '-' :: ((toHexW 32 u).drop 12).take 4 ++
        '-' :: ((toHexW 32 u).drop 16).take 4 ++ '-' :: (toHexW 32 u).drop 20 := rfl
  have hhex : ∀ c ∈ toHexW 32 u, (c != '-') = true := by
    intro c hc
    simp [bne_iff_ne]
    exact lowerHex_ne c (toHexW_mem 32 u c hc) '-' (by decide)
  have hfil : (uuidToString u).data.filter (fun c => c != '-') = toHexW 32 u := by
    rw [hdata]
    exact filter_canonical (toHexW 32 u) hhex
  have hmod : u % 16 ^ 32 = u := by
    apply Nat.mod_eq_of_lt
    calc u < 2 ^ 128 := hu
    _ = 16 ^ 32 := by norm_num
  rw [pyUUIDparse, replaceSub_eq_self ['u', 'r', 'n', ':'] 'u' rfl _ hnu,
    replaceSub_eq_self ['u', 'u', 'i', 'd', ':'] 'u' rfl _ hnu, hstrip, hfil,
    if_pos (toHexW_length 32 u), pyIntHex_toHexW u, hmod]
  simp only []
  rw [if_pos]
  · rfl
  · constructor
    · exact Int.ofNat_nonneg u
    · have h2 : ((2 : Int) ^ 128) = Int.ofNat (2 ^ 128) := by norm_num
      show (Int.ofNat u) < (2 : Int) ^ 128
      rw [h2]
      exact Int.ofNat_lt.mpr hu

/-! ### Claims about create/get/delete round trips and error paths -/

/-- Claim C4: a valid create request returns a freshly generated id not
previously returned (the id source models `gen_random_uuid()` under the
PRIMARY KEY constraint), and a subsequent get-by-id with that id — sent
as its canonical UUID string through the full path-parameter parsing —
returns a record whose name and region equal the request's exactly. -/
theorem C4_create_then_get (name region : String) (p : PoolSt) (db : DB)
    (hname : 1 ≤ name.length ∧ name.length ≤ 255)
    (hreg : 1 ≤ region.length ∧ region.length ≤ 16)
    (hrows : ∀ r ∈ db.rows, r.id < db.nextId)
    (hissued : ∀ i ∈ db.issued, i < db.nextId)
    (hbound : db.nextId < 2 ^ 128) :
    (route_create ⟨some name, some region⟩ p db none).resp =
      Response.created db.nextId ∧
    db.nextId ∉ db.issued ∧
    (route_get (uuidToString db.nextId)
        (route_create ⟨some name, some region⟩ p db none).pool
        (route_create ⟨some name, some region⟩ p db none).db none).resp =
      Response.clan ⟨db.nextId, name, region, db.clock⟩ := by
  have hparse : parseCreate ⟨some name, some region⟩ = some ⟨name, region⟩ := by
    simp [parseCreate, hname.1, hname.2, hreg.1, hreg.2]
  have hfresh : db.nextId ∉ db.issued := fun hmem =>
    absurd (hissued _ hmem) (lt_irrefl _)
  have hfind : (db.rows ++ [(⟨db.nextId, name, region, db.clock⟩ : Row)]).find?
      (fun r => r.id == db.nextId) = some ⟨db.nextId, name, region, db.clock⟩ := by
    rw [List.find?_append]
    have h1 : db.rows.find? (fun r => r.id == db.nextId) = none :=
      List.find?_eq_none.mpr (fun r hr => by simp [Nat.ne_of_lt (hrows r hr)])
    rw [h1]
    simp
  refine ⟨?_, hfresh, ?_⟩
  · rw [route_create, hparse]
    rfl
  · rw [route_create, hparse, route_get, pyUUID_roundtrip db.nextId hbound]
    simp [create_clan, get_clan, hfind]

theorem C4_create_then_get_witness :
    (route_create ⟨some "Alpha", some "EU"⟩ ⟨false⟩ emptyDB none).resp =
      Response.created 0 ∧
    (0 : Nat) ∉ emptyDB.issued ∧
    (route_get (uuidToString 0)
        (route_create ⟨some "Alpha", some "EU"⟩ ⟨false⟩ emptyDB none).pool
        (route_create ⟨some "Alpha", some "EU"⟩ ⟨false⟩ emptyDB none).db none).resp =
      Response.clan ⟨0, "Alpha", "EU", 0⟩ :=
  C4_create_then_get "Alpha" "EU" ⟨false⟩ emptyDB (by decide) (by decide)
    (by simp [emptyDB]) (by simp [emptyDB]) (by decide)

/-- Claim C5: deleting an existing clan succeeds, a subsequent
get-by-id for that id answers 404 not-found, and deleting the same id
a second time also answers 404. -/
theorem C5_delete_then_get (u : Nat) (r0 : Row) (p : PoolSt) (db : DB)
    (hu : u < 2 ^ 128)
    (hfound : db.rows.find? (fun r => r.id == u) = some r0) :
    (route_delete (uuidToString u) p db none).resp = Response.deleted u ∧
    (route_get (uuidToString u) (route_delete (uuidToString u) p db none).pool
        (route_delete (uuidToString u) p db none).db none).resp =
      Response.httpError 404 "Clan not found" ∧
    (route_delete (uuidToString u) (route_delete (uuidToString u) p db none).pool
        (route_delete (uuidToString u) p db none).db none).resp =
      Response.httpError 404 "Clan not found" := by
  have hrt := pyUUID_roundtrip u hu
  have hgone : (db.rows.filter (fun x => x.id != u)).find?
      (fun r => r.id == u) = none := by
    apply List.find?_eq_none.mpr
    intro x hx
    have := (List.mem_filter.mp hx).2
    simp only [bne_iff_ne, ne_eq] at this
    simp [this]
  obtain ⟨i⟩ := p
  refine ⟨?_, ?_, ?_⟩ <;>
    cases i <;>
      simp [route_delete, route_get, hrt, delete_clan, get_clan, get_pool,
        hfound, hgone]

theorem C5_delete_then_get_witness :
    (route_delete (uuidToString 0) ⟨true⟩ ⟨[⟨0, "Alpha", "EU", 0⟩], 1, [0], 1⟩ none).resp =
      Response.deleted 0 ∧
    (route_get (uuidToString 0)
        (route_delete (uuidToString 0) ⟨true⟩ ⟨[⟨0, "Alpha", "EU", 0⟩], 1, [0], 1⟩ none).pool
        (route_delete (uuidToString 0) ⟨true⟩ ⟨[⟨0, "Alpha", "EU", 0⟩], 1, [0], 1⟩ none).db
        none).resp = Response.httpError 404 "Clan not found" ∧
    (route_delete (uuidToString 0)
        (route_delete (uuidToString 0) ⟨true⟩ ⟨[⟨0, "Alpha", "EU", 0⟩], 1, [0], 1⟩ none).pool
        (route_delete (uuidToString 0) ⟨true⟩ ⟨[⟨0, "Alpha", "EU", 0⟩], 1, [0], 1⟩ none).db
        none).resp = Response.httpError 404 "Clan not found" :=
  C5_delete_then_get 0 ⟨0, "Alpha", "EU", 0⟩ ⟨true⟩ ⟨[⟨0, "Alpha", "EU", 0⟩], 1, [0], 1⟩
    (by decide) (by decide)

/-- Claim C7: a get-by-id whose path parameter does not parse as a
128-bit UUID (Python `uuid.UUID` semantics) is answered with the
framework's 422 — never 404 or 500 — before any pool or database
activity; a well-formed UUID matching no row is answered 404. -/
theorem C7_get_uuid_validation (raw : String) (u : Nat) (p : PoolSt) (db : DB) :
    (pyUUIDparse raw = none →
      (route_get raw p db none).resp = Response.validationError ∧
      (route_get raw p db none).resp.status = 422 ∧
      (route_get raw p db none).tr = [] ∧
      (route_get raw p db none).db = db) ∧
    (pyUUIDparse raw = some u → db.rows.find? (fun r => r.id == u) = none →
      (route_get raw p db none).resp = Response.httpError 404 "Clan not found") := by
  constructor
  · intro h
    simp [route_get, h, Response.status]
  · intro h hf
    obtain ⟨i⟩ := p
    cases i <;> simp [route_get, h, get_clan, get_pool, hf]

set_option maxRecDepth 4000 in
theorem C7_get_uuid_validation_witness :
    (route_get "not-a-uuid" ⟨true⟩ emptyDB none).resp = Response.validationError ∧
    (route_get "00000000-0000-0000-0000-000000000000" ⟨true⟩ emptyDB none).resp =
      Response.httpError 404 "Clan not found" :=
  ⟨((C7_get_uuid_validation "not-a-uuid" 0 ⟨true⟩ emptyDB).1 (by decide)).1,
   (C7_get_uuid_validation "00000000-0000-0000-0000-000000000000" 0 ⟨true⟩ emptyDB).2
     (by decide) (by decide)⟩

set_option maxRecDepth 4000 in
/-- Claim C1, counterexample: `delete_clan` has no `except` clause, so
on a database error the driver exception escapes the handler — the
response is the framework's generic 500 without the driver message, and
no rollback is performed on the in-flight transaction. -/
theorem C1_counterexample :
    (route_delete "00000000-0000-0000-0000-000000000001" ⟨true⟩ emptyDB
        (some "boom")).resp = Response.serverError ∧
    Ev.rollback ∉ (route_delete "00000000-0000-0000-0000-000000000001" ⟨true⟩ emptyDB
        (some "boom")).tr := by
  decide

/-- Claim C1 (amended): on a database error, only the create handler
rolls back the in-flight transaction and raises the 500 with the driver
message appended; the list and get handlers raise the same 500 but
perform no rollback; the delete handler catches nothing — the error
escapes as a generic 500 with no driver message and no rollback — though
its connection is still released. -/
theorem C1_db_error_per_handler (msg : String) (payload : CreateClanRequest) (u v : Nat)
    (region sb ord : Option String) (lim off : Option Int) (p : PoolSt) (db : DB)
    (hval : validLimitOffset lim off = true)
    (hsort : sb.getD "created_at" ∈ allowedCols)
    (hord : pyLower (ord.getD "desc") ∈ ["asc", "desc"]) :
    ((create_clan payload p db (some msg)).resp =
        Response.httpError 500 ("DB error: " ++ msg) ∧
      Ev.rollback ∈ (create_clan payload p db (some msg)).tr) ∧
    ((route_list region sb ord lim off p db (some msg)).resp =
        Response.httpError 500 ("DB error: " ++ msg) ∧
      Ev.rollback ∉ (route_list region sb ord lim off p db (some msg)).tr) ∧
    ((get_clan u p db (some msg)).resp = Response.httpError 500 ("DB error: " ++ msg) ∧
      Ev.rollback ∉ (get_clan u p db (some msg)).tr) ∧
    ((delete_clan v p db (some msg)).resp = Response.serverError ∧
      Ev.rollback ∉ (delete_clan v p db (some msg)).tr ∧
      Ev.release ∈ (delete_clan v p db (some msg)).tr) := by
  obtain ⟨i⟩ := p
  refine ⟨?_, ?_, ?_, ?_⟩ <;>
    cases i <;>
      simp [create_clan, route_list, list_clans, list_core, get_clan, delete_clan,
        get_pool, hval, hsort, hord]

theorem C1_db_error_witness :
    ((create_clan ⟨"Alpha", "EU"⟩ ⟨true⟩ emptyDB (some "boom")).resp =
        Response.httpError 500 ("DB error: " ++ "boom") ∧
      Ev.rollback ∈ (create_clan ⟨"Alpha", "EU"⟩ ⟨true⟩ emptyDB (some "boom")).tr) ∧
    ((route_list none none none none none ⟨true⟩ emptyDB (some "boom")).resp =
        Response.httpError 500 ("DB error: " ++ "boom") ∧
      Ev.rollback ∉ (route_list none none none none none ⟨true⟩ emptyDB (some "boom")).tr) ∧
    ((get_clan 0 ⟨true⟩ emptyDB (some "boom")).resp =
        Response.httpError 500 ("DB error: " ++ "boom") ∧
      Ev.rollback ∉ (get_clan 0 ⟨true⟩ emptyDB (some "boom")).tr) ∧
    ((delete_clan 0 ⟨true⟩ emptyDB (some "boom")).resp = Response.serverError ∧
      Ev.rollback ∉ (delete_clan 0 ⟨true⟩ emptyDB (some "boom")).tr ∧
      Ev.release ∈ (delete_clan 0 ⟨true⟩ emptyDB (some "boom")).tr) :=
  C1_db_error_per_handler "boom" ⟨"Alpha", "EU"⟩ 0 0 none none none none none
    ⟨true⟩ emptyDB (by decide) (by decide) (by decide)
